import Mathlib

/-!
# Verification of the payment reconciliation backend

A shallow embedding of the payment endpoints of the Express backend
(`src/unnamed/part_000`): session creation (`POST /api/payment/session`),
webhook reconciliation (`POST /api/payment/webhook`), status polling
(`GET /api/payment/status`) and fulfillment (`POST /api/payment/fulfill`),
together with theorems about idempotence, the trust boundary, correlation
resolution and error handling.

Modelling conventions:
* The Firestore `payments` collection is a `List PaymentDoc` in insertion
  order; `where(f, "==", v).limit(1)` is `List.find?`, `add` is an append,
  and `ref.update` replaces the located document in place.  A JSON field
  that may be absent or `null` is an `Option`; `none` never matches an
  equality query, as in Firestore.
* Outbound I/O (the Kashier verify call, the Apps Script dispatch) is an
  oracle passed to the handler; each handler result records whether the
  call was consumed and how many store writes happened.
* `admin.firestore.FieldValue.serverTimestamp()` is a `now : Nat`
  parameter.
* JavaScript `a || b` on string-valued fields treats `""`, `null` and
  `undefined` as falsy; this is `jsOr` / `firstTruthy` below.
-/

namespace TuringBackend

/-- JavaScript `||` on an optional string: `none` and `some ""` are falsy. -/
def jsOr (a b : Option String) : Option String :=
  match a with
  | some s => if s = "" then b else some s
  | none => b

/-- Normalise a JS string-or-missing value to `none` when falsy
(the effect of `x || null` at the end of a `||` chain). -/
def truthy (a : Option String) : Option String :=
  jsOr a none

/-- First truthy value of a JS `||` chain over string fields, or `none`. -/
def firstTruthy (l : List (Option String)) : Option String :=
  l.foldr (fun a b => jsOr a b) none

/-- A JSON scalar as it can appear in a request body for `amount`:
a (finite) number or a string.  JSON cannot carry `NaN`, but string
coercion can produce it. -/
inductive JVal where
  | num (q : Rat)
  | str (s : String)
deriving Repr, DecidableEq

/-- JS truthiness of a JSON scalar: `0` and `""` are falsy. -/
def JVal.truthyV : JVal → Bool
  | .num q => q ≠ 0
  | .str s => s ≠ ""

/-- Digits of a decimal numeral to a `Nat`; `none` when empty or non-digit. -/
def digitsToNat? (cs : List Char) : Option Nat :=
  if cs = [] then none
  else if cs.all Char.isDigit then
    some (cs.foldl (fun a c => a * 10 + (c.toNat - 48)) 0)
  else none

/-- Strip leading and trailing whitespace (the trimming `Number` does). -/
def trimChars (cs : List Char) : List Char :=
  ((cs.dropWhile Char.isWhitespace).reverse.dropWhile Char.isWhitespace).reverse

/-- The effect of `String.trim`, computed on the character list. -/
def jsTrim (s : String) : String :=
  String.mk (trimChars s.data)

/-- The effect of `String.toUpperCase`, computed on the character list. -/
def toUpperStr (s : String) : String :=
  String.mk (s.data.map Char.toUpper)

/-- JS `Number(s)` on a string, restricted to plain decimal numerals
(optional sign, digits, optional fraction); `""` coerces to `0`, anything
else non-numeric to `NaN`, modelled as `none`.  Exponent and hex forms do
not occur in this system's inputs and are mapped to `NaN` as well. -/
def jsStringToNumber (s : String) : Option Rat :=
  let t := jsTrim s
  if t = "" then some 0 else
  let (neg, body) :=
    match t.toList with
    | '-' :: rest => (true, rest)
    | '+' :: rest => (false, rest)
    | cs => (false, cs)
  let sign : Rat → Rat := fun q => if neg then -q else q
  match body.span (fun c => c ≠ '.') with
  | (intPart, []) => (digitsToNat? intPart).map (fun n => sign n)
  | (intPart, _ :: fracPart) =>
    if intPart = [] && fracPart = [] then none
    else
      match (if intPart = [] then some 0 else digitsToNat? intPart),
            (if fracPart = [] then some 0 else digitsToNat? fracPart) with
      | some i, some f =>
        some (sign ((i : Rat) + (f : Rat) / ((10 : Rat) ^ fracPart.length)))
      | _, _ => none

/-- JS `Number(v)` on a JSON scalar; `none` is `NaN`. -/
def jsNumber : JVal → Option Rat
  | .num q => some q
  | .str s => jsStringToNumber s

/-- JS `x <= 0` where `x` may be `NaN`: any comparison with `NaN` is false. -/
def jsLeZero : Option Rat → Bool
  | none => false
  | some q => q ≤ 0

/-- JS `String(v)` on a JSON scalar.  Integer numbers print as in JS;
the decimal rendering of non-integers is approximated by the `Rat`
rendering (never inspected by any handler). -/
def jsString : JVal → String
  | .str s => s
  | .num q => if q.den = 1 then toString q.num else toString q

/-- The customer object inside a raw provider response. -/
structure Customer where
  email : Option String
deriving Repr, DecidableEq

/-- The nested `data` object of a provider session-creation response. -/
structure SessionDataInner where
  _id : Option String
deriving Repr, DecidableEq

/-- Raw provider response to a session-creation call, as stored under
`response`. -/
structure SessionData where
  _id : Option String
  sessionId : Option String
  data : Option SessionDataInner
  status : Option String
  sessionUrl : Option String
  customer : Option Customer
deriving Repr, DecidableEq

/-- The payment object returned by a Kashier verification call
(`verification.data`, or the verification body itself). -/
structure Payment where
  status : Option String
  merchantOrderId : Option String
  order : Option String
deriving Repr, DecidableEq

/-- Result body of `fetchKashierSession`: `{ message, data }` where `data`
is the payment; when `data` is absent the top-level object is read as the
payment (`verification.data || verification`). -/
structure Verification where
  data : Option Payment
  self : Payment
deriving Repr, DecidableEq

/-- Models `const payment = verification.data || verification`. -/
def Verification.payment (v : Verification) : Payment :=
  v.data.getD v.self

/-- Caller-supplied user context stored on a record. -/
structure User where
  name : Option String
  email : Option String
  phone : Option String
  age : Option String
deriving Repr, DecidableEq

/-- The `metaData` object threaded through to fulfillment. -/
structure MetaData where
  packageId : Option String
  group_link : Option String
  age : Option String
deriving Repr, DecidableEq

/-- A document of the Firestore `payments` collection.  Fields that a
given writer does not set are `none` (absent); `receiptSent` is falsy
when absent. -/
structure PaymentDoc where
  sessionId : Option String := none
  merchantOrderId : Option String := none
  orderId : Option String := none
  status : Option String := none
  amount : Option String := none
  currency : Option String := none
  order : Option String := none
  age : Option String := none
  user : Option User := none
  metaData : Option MetaData := none
  response : Option SessionData := none
  verification : Option Payment := none
  receiptSent : Bool := false
  receiptResponse : Option String := none
  createdAt : Option Nat := none
  verifiedAt : Option Nat := none
deriving Repr, DecidableEq

/-- The `payments` collection. -/
abbrev Store := List PaymentDoc

/-- Query `where("merchantOrderId", "==", m).limit(1)` — an absent field never
matches. -/
def findByMerchantOrderId (store : Store) (m : String) : Option PaymentDoc :=
  store.find? (fun d => d.merchantOrderId = some m)

/-- Query `where("sessionId", "==", s).limit(1)`. -/
def findBySessionId (store : Store) (s : String) : Option PaymentDoc :=
  store.find? (fun d => d.sessionId = some s)

/-- Query `where("response._id", "==", k).limit(1)` — nested-field equality. -/
def findByResponseId (store : Store) (k : String) : Option PaymentDoc :=
  store.find? (fun d => d.response.bind (fun r => r._id) = some k)

/-- A `find?` together with the position of the match, so an update can
write back through the document reference. -/
def findWithIdx (p : PaymentDoc → Bool) : Store → Option (Nat × PaymentDoc)
  | [] => none
  | d :: ds =>
    if p d then some (0, d)
    else (findWithIdx p ds).map (fun x => (x.1 + 1, x.2))

/-- The success states recognised throughout the file
(`["PAID", "CAPTURED", "AUTHORIZED"]`). -/
def successStates : List String := ["PAID", "CAPTURED", "AUTHORIZED"]

/-- Models `successStates.includes(x)` where `x` may be `undefined`. -/
def isSuccess : Option String → Bool
  | none => false
  | some s => successStates.contains s

/-! ## Session creation: `POST /api/payment/session` -/

/-- Body of a session-creation request (fields read by the handler). -/
structure SessionReq where
  amount : Option JVal := none
  currency : Option String := none
  order : Option String := none
  merchantRedirect : Option String := none
  description : Option String := none
  customerEmail : Option String := none
  customerReference : Option String := none
  metaData : Option MetaData := none
  age : Option String := none
  user : Option User := none
deriving Repr, DecidableEq

/-- The provider-specific payload built for the session-creation call
(the fields that are computed from the request; the constant fields
`display`, `type`, `allowedMethods`, `merchantId`, `failureRedirect`,
`retrieveSavedCard`, `saveCard`, `serverWebhook` are literals or
environment values and carry no information for the claims). -/
structure SessionPayload where
  expireAt : Nat
  maxFailureAttempts : Nat
  paymentType : String
  amount : String
  currency : String
  order : String
  merchantRedirect : String
  defaultMethod : String
  description : String
  customerEmail : String
  customerReference : String
  metaData : MetaData
deriving Repr, DecidableEq

/-- Outcome of the outbound `fetch` to the provider: the promise may
reject, or resolve with an HTTP status (`resp.ok`) and a JSON body. -/
inductive ProviderOutcome where
  | threw (msg : String)
  | responded (ok : Bool) (data : SessionData)
deriving Repr, DecidableEq

/-- Response of the session-creation endpoint. -/
inductive SessionResp where
  | missingFields
  | invalidAmount
  | gatewayError (e : SessionData)
  | okResp (sessionUrl : Option String) (raw : SessionData)
  | serverError (msg : String)
deriving Repr, DecidableEq

/-- HTTP status code of a session-creation response. -/
def SessionResp.code : SessionResp → Nat
  | .missingFields => 400
  | .invalidAmount => 400
  | .gatewayError _ => 502
  | .okResp _ _ => 200
  | .serverError _ => 500

/-- Result of one run of the session-creation handler. -/
structure SessionResult where
  resp : SessionResp
  store : Store
  providerCalled : Bool
  writes : Nat
deriving Repr, DecidableEq

/-- JS truthiness of `amount` in `if (!amount || !merchantRedirect)`. -/
def amountTruthy (req : SessionReq) : Bool :=
  match req.amount with
  | some v => v.truthyV
  | none => false

/-- JS truthiness of `merchantRedirect`. -/
def redirectTruthy (req : SessionReq) : Bool :=
  (truthy req.merchantRedirect).isSome

/-- Models `Number(amount)` on the request body (`none` is `NaN`, also for a
missing field, since `Number(undefined)` is `NaN`). -/
def reqAmountNumber (req : SessionReq) : Option Rat :=
  match req.amount with
  | some v => jsNumber v
  | none => none

/-- Models the `Object.assign` merge of `metaData` (or an empty object)
with the optional `age` entry. -/
def mergeMetaData (md : Option MetaData) (age : Option String) : MetaData :=
  let base := md.getD {packageId := none, group_link := none, age := none}
  match truthy age with
  | some a => {base with age := some a}
  | none => base

/-- Handler of `POST /api/payment/session`: validate, build the provider payload,
call the provider, persist a `PaymentRecord` on success, return the
provider-furnished `sessionUrl`.  `now` stands for `Date.now()` and the
store's server timestamp. -/
def createSessionHandler (req : SessionReq) (store : Store)
    (provider : ProviderOutcome) (now : Nat) : SessionResult :=
  if ¬ (amountTruthy req = true ∧ redirectTruthy req = true) then
    ⟨.missingFields, store, false, 0⟩
  else
    if jsLeZero (reqAmountNumber req) then
      ⟨.invalidAmount, store, false, 0⟩
    else
      -- destructuring defaults: applied only when the property is absent
      let order := req.order.getD ("order-" ++ toString now)
      let currency := req.currency.getD "EGP"
      let amountStr := match req.amount with
        | some v => jsString v
        | none => ""
      let payload : SessionPayload := {
        expireAt := now + 1000 * 60 * 60,
        maxFailureAttempts := 3,
        paymentType := "credit",
        amount := amountStr,
        currency := currency,
        order := order,
        merchantRedirect := (req.merchantRedirect).getD "",
        defaultMethod := "card",
        description := (truthy req.description).getD ("Payment for " ++ order),
        customerEmail := (truthy req.customerEmail).getD "",
        customerReference := (truthy req.customerReference).getD "",
        metaData := mergeMetaData req.metaData req.age }
      match provider with
      | .threw m => ⟨.serverError m, store, true, 0⟩
      | .responded false data => ⟨.gatewayError data, store, true, 0⟩
      | .responded true data =>
        -- `data._id || data.sessionId || (data.data && data.data._id) || null`
        let sessionId :=
          firstTruthy [data._id, data.sessionId, data.data.bind (fun x => x._id)]
        let doc : PaymentDoc := {
          sessionId := sessionId,
          merchantOrderId := some payload.order,
          status := some ((truthy data.status).getD "CREATED"),
          createdAt := some now,
          amount := some payload.amount,
          currency := some payload.currency,
          order := some payload.order,
          age := truthy req.age,
          user := req.user,
          response := some data }
        ⟨.okResp data.sessionUrl data, store ++ [doc], true, 1⟩

/-! ## Webhook reconciliation: `POST /api/payment/webhook` -/

/-- The nested `data` object of a webhook notification body. -/
structure EvtData where
  sessionId : Option String := none
  merchantOrderId : Option String := none
  order : Option String := none
  kashierOrderId : Option String := none
  status : Option String := none
deriving Repr, DecidableEq

/-- A webhook notification body (`req.body`); `status` is the
self-reported status, which the handler must never trust. -/
structure Evt where
  sessionId : Option String := none
  _id : Option String := none
  data : Option EvtData := none
  merchantOrderId : Option String := none
  order : Option String := none
  kashierOrderId : Option String := none
  orderReference : Option String := none
  status : Option String := none
deriving Repr, DecidableEq

/-- Models `evt.sessionId || evt._id || (evt.data && evt.data.sessionId) || null`. -/
def directSessionId (evt : Evt) : Option String :=
  firstTruthy [evt.sessionId, evt._id, evt.data.bind (fun d => d.sessionId)]

/-- Models `evt.merchantOrderId || evt.data?.merchantOrderId || evt.order ||
evt.data?.order || null`. -/
def evtMerchantOrderId (evt : Evt) : Option String :=
  firstTruthy [evt.merchantOrderId, evt.data.bind (fun d => d.merchantOrderId),
    evt.order, evt.data.bind (fun d => d.order)]

/-- Models `evt.kashierOrderId || evt.data?.kashierOrderId || evt.orderReference
|| null`. -/
def evtKashierOrderId (evt : Evt) : Option String :=
  firstTruthy [evt.kashierOrderId, evt.data.bind (fun d => d.kashierOrderId),
    evt.orderReference]

/-- The ordered correlation fallback of the webhook handler: the direct
session identifier, else a lookup by `merchantOrderId`, else a lookup of
`kashierOrderId`/`orderReference` against the stored `response._id`. -/
def resolveSessionId (evt : Evt) (store : Store) : Option String :=
  match directSessionId evt with
  | some s => some s
  | none =>
    let viaMoid :=
      match evtMerchantOrderId evt with
      | some m => (findByMerchantOrderId store m).bind (fun d => truthy d.sessionId)
      | none => none
    match viaMoid with
    | some s => some s
    | none =>
      match evtKashierOrderId evt with
      | some k => (findByResponseId store k).bind (fun d => truthy d.sessionId)
      | none => none

/-- Response of the webhook endpoint. -/
inductive WebhookResp where
  | missingSessionId
  | verificationFailed
  | okResp
deriving Repr, DecidableEq

/-- HTTP status code of a webhook response. -/
def WebhookResp.code : WebhookResp → Nat
  | .missingSessionId => 400
  | .verificationFailed => 500
  | .okResp => 200

/-- Result of one run of the webhook handler. -/
structure WebhookResult where
  resp : WebhookResp
  store : Store
  verifyCalled : Bool
  writes : Nat
deriving Repr, DecidableEq

/-- Handler of `POST /api/payment/webhook`: resolve a session identifier from the
notification, re-verify with the gateway (`verify` is the outcome of
`fetchKashierSession`), then apply the idempotent update: write only if
the verified status differs from the stored one, create the record if
missing. -/
def webhookHandler (evt : Evt) (store : Store)
    (verify : Except String Verification) (now : Nat) : WebhookResult :=
  match resolveSessionId evt store with
  | none => ⟨.missingSessionId, store, false, 0⟩
  | some sid =>
    match verify with
    | .error _ => ⟨.verificationFailed, store, true, 0⟩
    | .ok v =>
      let payment := v.payment
      let status := payment.status
      let orderId := firstTruthy [payment.merchantOrderId, payment.order]
      match findWithIdx (fun d => d.sessionId = some sid) store with
      | some (i, d) =>
        if d.status = status then
          ⟨.okResp, store, true, 0⟩
        else
          ⟨.okResp,
           store.set i
             {d with status := status, verifiedAt := some now,
                     verification := some payment},
           true, 1⟩
      | none =>
        ⟨.okResp,
         store ++ [{ sessionId := some sid, orderId := orderId,
                     status := status, verification := some payment,
                     createdAt := some now : PaymentDoc }],
         true, 1⟩

/-! ## Status polling: `GET /api/payment/status` -/

/-- Query parameters of a status request (query strings; an empty string
is falsy). -/
structure StatusQuery where
  merchantOrderId : Option String := none
  sessionId : Option String := none
deriving Repr, DecidableEq

/-- Response of the status endpoint. -/
inductive StatusResp where
  | badRequest
  | foundFinal (status : Option String) (verified : Bool) (payment : PaymentDoc)
  | verifiedLive (status : Option String) (verified : Bool) (payment : Payment)
  | storedUnverified (status : Option String) (verified : Bool) (payment : PaymentDoc)
  | verifyFailed
  | notFound
deriving Repr, DecidableEq

/-- HTTP status code of a status response. -/
def StatusResp.code : StatusResp → Nat
  | .badRequest => 400
  | .foundFinal _ _ _ => 200
  | .verifiedLive _ _ _ => 200
  | .storedUnverified _ _ _ => 200
  | .verifyFailed => 500
  | .notFound => 404

/-- Result of one run of the status handler. -/
structure StatusResult where
  resp : StatusResp
  store : Store
  verifyCalled : Bool
  writes : Nat
deriving Repr, DecidableEq

/-- The two-stage record lookup shared by the status and fulfillment
handlers: by `merchantOrderId` when that parameter is truthy, then by
`sessionId` when nothing was found and that parameter is truthy. -/
def locateDoc (store : Store) (mo sid : Option String) :
    Option (Nat × PaymentDoc) :=
  let first := match truthy mo with
    | some m => findWithIdx (fun d => d.merchantOrderId = some m) store
    | none => none
  match first with
  | some x => some x
  | none =>
    match truthy sid with
    | some s => findWithIdx (fun d => d.sessionId = some s) store
    | none => none

/-- Handler of `GET /api/payment/status`: locate the record; return a stored success
state without re-verifying; otherwise verify live and update; when no
record exists, verify-and-create from a supplied `sessionId`; `404` only
when neither is possible. -/
def statusHandler (q : StatusQuery) (store : Store)
    (verify : Except String Verification) (now : Nat) : StatusResult :=
  if (truthy q.merchantOrderId).isNone ∧ (truthy q.sessionId).isNone then
    ⟨.badRequest, store, false, 0⟩
  else
    match locateDoc store q.merchantOrderId q.sessionId with
    | some (i, d) =>
      -- `successStates.includes((data.status || "").toUpperCase())`
      if successStates.contains (toUpperStr ((truthy d.status).getD "")) then
        -- `{ status: data.status, verified: true, payment: data }`
        ⟨.foundFinal d.status true d, store, false, 0⟩
      else
        -- `const sid = data.sessionId || sessionId; if (sid) ...`
        match firstTruthy [d.sessionId, q.sessionId] with
        | some _ =>
          match verify with
          | .error _ => ⟨.verifyFailed, store, true, 0⟩
          | .ok v =>
            let payment := v.payment
            let status := payment.status
            ⟨.verifiedLive status (isSuccess status) payment,
             store.set i
               {d with status := status, verification := some payment,
                       verifiedAt := some now},
             true, 1⟩
        | none =>
          -- `{ status: data.status || null, verified: false, payment: data }`
          ⟨.storedUnverified (truthy d.status) false d, store, false, 0⟩
    | none =>
      match truthy q.sessionId with
      | some s =>
        match verify with
        | .error _ => ⟨.verifyFailed, store, true, 0⟩
        | .ok v =>
          let payment := v.payment
          let status := payment.status
          let doc : PaymentDoc := {
            sessionId := some s,
            merchantOrderId := firstTruthy [payment.merchantOrderId, payment.order],
            status := status,
            verification := some payment,
            createdAt := some now }
          ⟨.verifiedLive status (isSuccess status) payment,
           store ++ [doc], true, 1⟩
      | none => ⟨.notFound, store, false, 0⟩

/-! ## Fulfillment: `POST /api/payment/fulfill` -/

/-- Body of a fulfillment request. -/
structure FulfillReq where
  merchantOrderId : Option String := none
  sessionId : Option String := none
deriving Repr, DecidableEq

/-- Outcome of the outbound dispatch to the notification collaborator:
the `fetch` may reject, or resolve with `resp.ok` and a response text. -/
inductive DispatchOutcome where
  | threw (msg : String)
  | responded (ok : Bool) (text : String)
deriving Repr, DecidableEq

/-- The receipt payload sent to the notification collaborator (the
optional shared-secret token is environment configuration and omitted). -/
structure AppsPayload where
  name : String
  email : String
  phone : String
  age : Option String
  program_id : String
  program_title : String
  program_name : String
  group_link : String
deriving Repr, DecidableEq

/-- Response of the fulfillment endpoint. -/
inductive FulfillResp where
  | badRequest
  | recordNotFound
  | alreadySent (status : Option String)
  | verifyFailed
  | notSuccessful (status : Option String)
  | noEmail (status : Option String)
  | dispatched (status : Option String) (receiptSent : Bool)
      (receiptResponse : String)
  | dispatchFailed
deriving Repr, DecidableEq

/-- HTTP status code of a fulfillment response. -/
def FulfillResp.code : FulfillResp → Nat
  | .badRequest => 400
  | .recordNotFound => 404
  | .alreadySent _ => 200
  | .verifyFailed => 500
  | .notSuccessful _ => 400
  | .noEmail _ => 200
  | .dispatched _ _ _ => 200
  | .dispatchFailed => 500

/-- Result of one run of the fulfillment handler; `dispatched` is the
payload of the outbound dispatch when one was attempted. -/
structure FulfillResult where
  resp : FulfillResp
  store : Store
  verifyCalled : Bool
  dispatched : Option AppsPayload
  writes : Nat
deriving Repr, DecidableEq

/-- Models `(user && user.email) || data.response?.customer?.email || null`
with `user = data.user || {}`. -/
def resolveEmail (d : PaymentDoc) : Option String :=
  let u := d.user.getD {name := none, email := none, phone := none, age := none}
  firstTruthy [u.email, (d.response.bind (fun r => r.customer)).bind (fun c => c.email)]

/-- The Apps Script receipt payload built from the record. -/
def buildAppsPayload (d : PaymentDoc) (email : String) : AppsPayload :=
  let u := d.user.getD {name := none, email := none, phone := none, age := none}
  { name := (truthy u.name).getD "",
    email := email,
    phone := (truthy u.phone).getD "",
    age := firstTruthy [u.age, d.age],
    program_id := (truthy d.order).getD "",
    program_title := (truthy (d.metaData.bind (fun m => m.packageId))).getD "",
    program_name := (truthy (d.metaData.bind (fun m => m.packageId))).getD "",
    group_link := (truthy (d.metaData.bind (fun m => m.group_link))).getD "" }

/-- Handler of `POST /api/payment/fulfill`: locate the record; short-circuit when a
receipt was already sent; verify; reject non-success states; resolve an
email; dispatch the receipt and record the outcome. -/
def fulfillHandler (req : FulfillReq) (store : Store)
    (verify : Except String Verification) (dispatch : DispatchOutcome)
    (now : Nat) : FulfillResult :=
  if (truthy req.merchantOrderId).isNone ∧ (truthy req.sessionId).isNone then
    ⟨.badRequest, store, false, none, 0⟩
  else
    match locateDoc store req.merchantOrderId req.sessionId with
    | none => ⟨.recordNotFound, store, false, none, 0⟩
    | some (i, d) =>
      if d.receiptSent then
        ⟨.alreadySent d.status, store, false, none, 0⟩
      else
        match verify with
        | .error _ => ⟨.verifyFailed, store, true, none, 0⟩
        | .ok v =>
          let payment := v.payment
          let status := payment.status
          if ¬ isSuccess status then
            ⟨.notSuccessful status,
             store.set i
               {d with status := status, verification := some payment,
                       verifiedAt := some now},
             true, none, 1⟩
          else
            match resolveEmail d with
            | none =>
              ⟨.noEmail status,
               store.set i
                 {d with status := status, verification := some payment,
                         verifiedAt := some now},
               true, none, 1⟩
            | some email =>
              let appsPayload := buildAppsPayload d email
              match dispatch with
              | .responded ok text =>
                ⟨.dispatched status ok text,
                 store.set i
                   {d with status := status, verification := some payment,
                           verifiedAt := some now, receiptSent := ok,
                           receiptResponse := some text},
                 true, some appsPayload, 1⟩
              | .threw _ =>
                ⟨.dispatchFailed,
                 store.set i
                   {d with status := status, verification := some payment,
                           verifiedAt := some now},
                 true, some appsPayload, 1⟩

/-! ## List and lookup lemmas -/

/-- Setting an index to the value it already holds is the identity. -/
theorem List.set_self {α : Type _} (l : List α) (i : Nat) (a : α)
    (h : l[i]? = some a) : l.set i a = l := by
  induction l generalizing i with
  | nil => simp at h
  | cons hd tl ih =>
    cases i with
    | zero => simp_all
    | succ j =>
      simp only [List.getElem?_cons_succ] at h
      simp [ih j h]

/-- The function `findWithIdx` returns the element stored at the returned index. -/
theorem findWithIdx_getElem (p : PaymentDoc → Bool) (l : Store)
    (i : Nat) (d : PaymentDoc) (h : findWithIdx p l = some (i, d)) :
    l[i]? = some d := by
  induction l generalizing i with
  | nil => simp [findWithIdx] at h
  | cons hd tl ih =>
    unfold findWithIdx at h
    by_cases hp : p hd
    · rw [if_pos hp] at h
      cases h
      simp
    · rw [if_neg hp] at h
      cases hfind : findWithIdx p tl with
      | none => rw [hfind] at h; simp at h
      | some x =>
        obtain ⟨j, e⟩ := x
        rw [hfind] at h
        simp only [Option.map_some'] at h
        cases h
        simpa using ih j hfind

/-- The element found by `findWithIdx` satisfies the predicate. -/
theorem findWithIdx_pred (p : PaymentDoc → Bool) (l : Store)
    (i : Nat) (d : PaymentDoc) (h : findWithIdx p l = some (i, d)) :
    p d = true := by
  induction l generalizing i with
  | nil => simp [findWithIdx] at h
  | cons hd tl ih =>
    unfold findWithIdx at h
    by_cases hp : p hd
    · rw [if_pos hp] at h
      cases h
      exact hp
    · rw [if_neg hp] at h
      cases hfind : findWithIdx p tl with
      | none => rw [hfind] at h; simp at h
      | some x =>
        obtain ⟨j, e⟩ := x
        rw [hfind] at h
        simp only [Option.map_some'] at h
        cases h
        exact ih j hfind

/-- Replacing the found element by one that still satisfies the
predicate leaves the search result at the same index. -/
theorem findWithIdx_set (p : PaymentDoc → Bool) (l : Store)
    (i : Nat) (d e : PaymentDoc) (h : findWithIdx p l = some (i, d))
    (he : p e = true) : findWithIdx p (l.set i e) = some (i, e) := by
  induction l generalizing i with
  | nil => simp [findWithIdx] at h
  | cons hd tl ih =>
    unfold findWithIdx at h
    by_cases hp : p hd
    · rw [if_pos hp] at h
      cases h
      simp [List.set, findWithIdx, he]
    · rw [if_neg hp] at h
      cases hfind : findWithIdx p tl with
      | none => rw [hfind] at h; simp at h
      | some x =>
        obtain ⟨j, f⟩ := x
        rw [hfind] at h
        simp only [Option.map_some'] at h
        cases h
        simp [List.set, findWithIdx, hp, ih j hfind]

/-- Search over an extension of a list in which nothing matched. -/
theorem findWithIdx_append_none (p : PaymentDoc → Bool) (l : Store)
    (n : PaymentDoc) (h : findWithIdx p l = none) :
    findWithIdx p (l ++ [n]) =
      if p n then some (l.length, n) else none := by
  induction l with
  | nil =>
    cases hpn : p n <;> simp [findWithIdx, hpn]
  | cons hd tl ih =>
    unfold findWithIdx at h
    by_cases hp : p hd
    · rw [if_pos hp] at h; simp at h
    · rw [if_neg hp] at h
      have htl : findWithIdx p tl = none := by
        cases hfind : findWithIdx p tl with
        | none => rfl
        | some x => rw [hfind] at h; simp at h
      rw [List.cons_append]
      unfold findWithIdx
      rw [if_neg hp, ih htl]
      cases hpn : p n <;> simp [hpn]

/-- A set at a found index does not change the image of the list under
a projection the update preserves. -/
theorem map_set_self {α : Type _} (f : PaymentDoc → α) (l : Store)
    (i : Nat) (d e : PaymentDoc) (hget : l[i]? = some d)
    (hf : f e = f d) : (l.set i e).map f = l.map f := by
  rw [List.map_set]
  apply List.set_self
  rw [List.getElem?_map, hget]
  simp [hf]

/-- Appending an element that fails the predicate does not change the
search result. -/
theorem findWithIdx_append_nomatch (p : PaymentDoc → Bool) (l : Store)
    (n : PaymentDoc) (hn : p n = false) :
    findWithIdx p (l ++ [n]) = findWithIdx p l := by
  induction l with
  | nil => simp [findWithIdx, hn]
  | cons hd tl ih =>
    rw [List.cons_append]
    unfold findWithIdx
    rw [ih]

/-! ## Theorems: session creation (C7, C4) -/

/-- C7 counterexample: a request with `amount = "abc"` has
`Number(amount) = NaN`, which is *not* greater than `0`, yet the handler
does not return `400`: the code's `Number(amount) <= 0` test is false for
`NaN`, so the request proceeds to the provider call and a store write. -/
theorem c7_counterexample :
    jsNumber (JVal.str "abc") = none ∧
    (createSessionHandler
      { amount := some (.str "abc"), merchantRedirect := some "https://x/r" }
      []
      (.responded true { _id := some "s1", sessionId := none, data := none,
                         status := none, sessionUrl := some "https://pay",
                         customer := none })
      0).resp.code = 200 ∧
    (createSessionHandler
      { amount := some (.str "abc"), merchantRedirect := some "https://x/r" }
      []
      (.responded true { _id := some "s1", sessionId := none, data := none,
                         status := none, sessionUrl := some "https://pay",
                         customer := none })
      0).providerCalled = true := by
  refine ⟨by decide, by decide, by decide⟩

/-- C7 (amended): a request missing (or with falsy) `amount` or
`merchantRedirect` gets `400` with no store write and no provider call;
a request whose `Number(amount)` is a real number `≤ 0` likewise gets
`400` with no side effects.  (An `amount` that coerces to `NaN` passes
validation, since `NaN <= 0` is false in JS.) -/
theorem c7_validation (req : SessionReq) (store : Store)
    (provider : ProviderOutcome) (now : Nat) :
    (¬ (amountTruthy req = true ∧ redirectTruthy req = true) →
      createSessionHandler req store provider now =
        ⟨.missingFields, store, false, 0⟩ ∧
      SessionResp.missingFields.code = 400)
    ∧ (jsLeZero (reqAmountNumber req) = true →
      (createSessionHandler req store provider now).resp.code = 400 ∧
      (createSessionHandler req store provider now).store = store ∧
      (createSessionHandler req store provider now).providerCalled = false ∧
      (createSessionHandler req store provider now).writes = 0) := by
  constructor
  · intro h
    exact ⟨by simp [createSessionHandler, h], rfl⟩
  · intro h
    by_cases hm : amountTruthy req = true ∧ redirectTruthy req = true
    · simp [createSessionHandler, hm, h, SessionResp.code]
    · simp [createSessionHandler, hm, SessionResp.code]

/-- Witness for `c7_validation` at `amount = -5`. -/
theorem c7_validation_witness :
    (createSessionHandler
      { amount := some (.num (-5)), merchantRedirect := some "r" }
      [] (.threw "e") 0).resp.code = 400 ∧
    (createSessionHandler
      { amount := some (.num (-5)), merchantRedirect := some "r" }
      [] (.threw "e") 0).store = [] ∧
    (createSessionHandler
      { amount := some (.num (-5)), merchantRedirect := some "r" }
      [] (.threw "e") 0).providerCalled = false ∧
    (createSessionHandler
      { amount := some (.num (-5)), merchantRedirect := some "r" }
      [] (.threw "e") 0).writes = 0 :=
  (c7_validation { amount := some (.num (-5)), merchantRedirect := some "r" }
    [] (.threw "e") 0).2 (by decide)

/-- C4 counterexample: when the provider's success response itself
carries a (truthy) `status` field, the persisted record stores that
value — `status: data.status || "CREATED"` — not `CREATED`. -/
theorem c4_counterexample :
    (createSessionHandler
      { amount := some (.num 100), merchantRedirect := some "https://x/r" }
      []
      (.responded true { _id := some "s1", sessionId := none, data := none,
                         status := some "PENDING",
                         sessionUrl := some "https://pay", customer := none })
      0).resp.code = 200 ∧
    (createSessionHandler
      { amount := some (.num 100), merchantRedirect := some "https://x/r" }
      []
      (.responded true { _id := some "s1", sessionId := none, data := none,
                         status := some "PENDING",
                         sessionUrl := some "https://pay", customer := none })
      0).store.map PaymentDoc.status = [some "PENDING"] := by
  refine ⟨by decide, by decide⟩

/-- C4 (amended): for every valid session-creation request with a
successful provider response, the response carries the provider's
`sessionUrl` and exactly one record is appended, keyed by the provider's
returned session identifier and the merchant order identifier, with
`status` equal to the provider response's truthy `status` if any, else
`"CREATED"`. -/
theorem c4_session_persist (req : SessionReq) (store : Store)
    (data : SessionData) (now : Nat)
    (hA : amountTruthy req = true) (hR : redirectTruthy req = true)
    (hpos : jsLeZero (reqAmountNumber req) = false) :
    (createSessionHandler req store (.responded true data) now).resp =
      .okResp data.sessionUrl data ∧
    (SessionResp.okResp data.sessionUrl data).code = 200 ∧
    (createSessionHandler req store (.responded true data) now).writes = 1 ∧
    ∃ doc,
      (createSessionHandler req store (.responded true data) now).store =
        store ++ [doc] ∧
      doc.sessionId =
        firstTruthy [data._id, data.sessionId,
          data.data.bind (fun x => x._id)] ∧
      doc.merchantOrderId = some (req.order.getD ("order-" ++ toString now)) ∧
      doc.status = some ((truthy data.status).getD "CREATED") := by
  have hcond : amountTruthy req = true ∧ redirectTruthy req = true := ⟨hA, hR⟩
  refine ⟨?_, rfl, ?_, ?_⟩ <;>
    simp [createSessionHandler, hcond, hpos, SessionResp.code]

/-- Witness for `c4_session_persist` at a concrete valid request. -/
theorem c4_session_persist_witness :
    (createSessionHandler
      { amount := some (.num 100), merchantRedirect := some "https://x/r" }
      []
      (.responded true { _id := some "s1", sessionId := none, data := none,
                         status := none, sessionUrl := some "https://pay",
                         customer := none })
      5).resp =
      .okResp (some "https://pay")
        { _id := some "s1", sessionId := none, data := none, status := none,
          sessionUrl := some "https://pay", customer := none } ∧
    ∃ doc,
      (createSessionHandler
        { amount := some (.num 100), merchantRedirect := some "https://x/r" }
        []
        (.responded true { _id := some "s1", sessionId := none, data := none,
                           status := none, sessionUrl := some "https://pay",
                           customer := none })
        5).store = [] ++ [doc] ∧
      doc.sessionId =
        firstTruthy [some "s1", none, none] ∧
      doc.merchantOrderId = some "order-5" ∧
      doc.status = some ((truthy none).getD "CREATED") := by
  have h := c4_session_persist
    { amount := some (.num 100), merchantRedirect := some "https://x/r" }
    []
    { _id := some "s1", sessionId := none, data := none, status := none,
      sessionUrl := some "https://pay", customer := none }
    5 (by decide) (by decide) (by decide)
  exact ⟨h.1, h.2.2.2⟩

/-! ## Theorems: status polling (C9, C8) -/

/-- A located record implies at least one truthy query parameter, so the
initial `400` guard of the status and fulfillment handlers cannot fire. -/
theorem locateDoc_some_valid (store : Store) (mo sid : Option String)
    (x : Nat × PaymentDoc) (h : locateDoc store mo sid = some x) :
    ¬((truthy mo).isNone = true ∧ (truthy sid).isNone = true) := by
  rintro ⟨h1, h2⟩
  rw [Option.isNone_iff_eq_none] at h1 h2
  unfold locateDoc at h
  rw [h1, h2] at h
  simp at h

/-- C9: a status query that locates a record whose stored status is one
of the success states returns that stored status with `verified: true`,
makes no verification call, and performs no store write. -/
theorem c9_final_short_circuit (q : StatusQuery) (store : Store)
    (verify : Except String Verification) (now : Nat)
    (i : Nat) (d : PaymentDoc) (s : String)
    (hloc : locateDoc store q.merchantOrderId q.sessionId = some (i, d))
    (hst : d.status = some s) (hsucc : s ∈ successStates) :
    statusHandler q store verify now =
      ⟨.foundFinal (some s) true d, store, false, 0⟩ ∧
    (StatusResp.foundFinal (some s) true d).code = 200 := by
  have hval := locateDoc_some_valid store q.merchantOrderId q.sessionId _ hloc
  have hup : successStates.contains (toUpperStr ((truthy d.status).getD "")) = true := by
    rw [hst]
    simp only [successStates, List.mem_cons] at hsucc
    rcases hsucc with rfl | rfl | rfl | h
    · decide
    · decide
    · decide
    · simp at h
  refine ⟨?_, rfl⟩
  unfold statusHandler
  rw [if_neg hval, hloc]
  dsimp only
  rw [if_pos hup, hst]

/-- Witness for `c9_final_short_circuit`. -/
theorem c9_witness :
    statusHandler { merchantOrderId := some "o1", sessionId := none }
      [{ sessionId := some "abc", merchantOrderId := some "o1",
         status := some "PAID" }]
      (.error "provider down") 3 =
      ⟨.foundFinal (some "PAID") true
        { sessionId := some "abc", merchantOrderId := some "o1",
          status := some "PAID" },
       [{ sessionId := some "abc", merchantOrderId := some "o1",
          status := some "PAID" }], false, 0⟩ :=
  (c9_final_short_circuit
    { merchantOrderId := some "o1", sessionId := none }
    [{ sessionId := some "abc", merchantOrderId := some "o1",
       status := some "PAID" }]
    (.error "provider down") 3 0
    { sessionId := some "abc", merchantOrderId := some "o1",
      status := some "PAID" }
    "PAID" (by decide) rfl (by decide)).1

/-- C8: among queries that pass the initial validation, the status
endpoint answers `404` exactly when no record is located and no truthy
`sessionId` was supplied; with no record but a supplied `sessionId` it
instead verifies with the provider, appends a minimal record carrying
the verified status, and returns that status. -/
theorem c8_not_found_iff (q : StatusQuery) (store : Store)
    (verify : Except String Verification) (now : Nat)
    (hvalid : ¬((truthy q.merchantOrderId).isNone = true ∧
      (truthy q.sessionId).isNone = true)) :
    ((statusHandler q store verify now).resp = .notFound ↔
      locateDoc store q.merchantOrderId q.sessionId = none ∧
      truthy q.sessionId = none)
    ∧ (∀ s v, locateDoc store q.merchantOrderId q.sessionId = none →
        truthy q.sessionId = some s → verify = .ok v →
        (statusHandler q store verify now).resp =
          .verifiedLive (Verification.payment v).status
            (isSuccess (Verification.payment v).status)
            (Verification.payment v) ∧
        ∃ doc, (statusHandler q store verify now).store = store ++ [doc] ∧
          doc.sessionId = some s ∧
          doc.status = (Verification.payment v).status ∧
          doc.verification = some (Verification.payment v)) := by
  unfold statusHandler
  rw [if_neg hvalid]
  cases hloc : locateDoc store q.merchantOrderId q.sessionId with
  | some x =>
    obtain ⟨i, d⟩ := x
    dsimp only
    by_cases hf : successStates.contains (toUpperStr ((truthy d.status).getD "")) = true
    · rw [if_pos hf]
      exact ⟨⟨fun habs => by simp at habs, fun h => absurd h.1 (by simp)⟩,
        fun s v h1 _ _ => absurd h1 (by simp)⟩
    · rw [if_neg hf]
      cases hsid : firstTruthy [d.sessionId, q.sessionId] with
      | some s0 =>
        cases verify with
        | error e =>
          exact ⟨⟨fun habs => by simp at habs, fun h => absurd h.1 (by simp)⟩,
            fun s v h1 _ _ => absurd h1 (by simp)⟩
        | ok v0 =>
          exact ⟨⟨fun habs => by simp at habs, fun h => absurd h.1 (by simp)⟩,
            fun s v h1 _ _ => absurd h1 (by simp)⟩
      | none =>
        exact ⟨⟨fun habs => by simp at habs, fun h => absurd h.1 (by simp)⟩,
          fun s v h1 _ _ => absurd h1 (by simp)⟩
  | none =>
    dsimp only
    cases hsid : truthy q.sessionId with
    | some s0 =>
      cases verify with
      | error e =>
        exact ⟨⟨fun habs => by simp at habs, fun h => absurd h.2 (by simp)⟩,
          fun s v _ _ hv => by cases hv⟩
      | ok v0 =>
        refine ⟨⟨fun habs => by simp at habs, fun h => absurd h.2 (by simp)⟩, ?_⟩
        intro s v _ hsid2 hv
        injection hsid2 with hs
        subst hs
        injection hv with hvv
        subst hvv
        exact ⟨rfl, _, rfl, rfl, rfl, rfl⟩
    | none =>
      exact ⟨⟨fun _ => ⟨rfl, rfl⟩, fun _ => rfl⟩,
        fun s v _ hsid2 _ => by simp at hsid2⟩

/-- Witness for `c8_not_found_iff`: unknown `merchantOrderId`, no
`sessionId`, yields `404`. -/
theorem c8_witness :
    (statusHandler { merchantOrderId := some "nope", sessionId := none }
      [] (.error "x") 0).resp = .notFound :=
  ((c8_not_found_iff { merchantOrderId := some "nope", sessionId := none }
    [] (.error "x") 0 (by decide)).1).mpr ⟨rfl, rfl⟩

/-! ## Theorems: fulfillment (C5, C6) -/

/-- C5: a fulfillment request resolving to a record with `receiptSent`
already true returns a `200` success, makes no dispatch, no verification
call and no store write; a second fulfillment call on the resulting
store again dispatches nothing, so two calls on an already-dispatched
record trigger no dispatch at all. -/
theorem c5_fulfill_idempotent (req : FulfillReq) (store : Store)
    (verify : Except String Verification) (dispatch : DispatchOutcome)
    (now : Nat) (i : Nat) (d : PaymentDoc)
    (hloc : locateDoc store req.merchantOrderId req.sessionId = some (i, d))
    (hsent : d.receiptSent = true) :
    fulfillHandler req store verify dispatch now =
      ⟨.alreadySent d.status, store, false, none, 0⟩ ∧
    (FulfillResp.alreadySent d.status).code = 200 ∧
    (∀ verify2 dispatch2 now2,
      (fulfillHandler req (fulfillHandler req store verify dispatch now).store
        verify2 dispatch2 now2).dispatched = none) := by
  have hval := locateDoc_some_valid store req.merchantOrderId req.sessionId _ hloc
  have hrun : ∀ (verify' : Except String Verification)
      (dispatch' : DispatchOutcome) (now' : Nat),
      fulfillHandler req store verify' dispatch' now' =
        ⟨.alreadySent d.status, store, false, none, 0⟩ := by
    intro verify' dispatch' now'
    unfold fulfillHandler
    rw [if_neg hval, hloc]
    dsimp only
    rw [hsent]
    rfl
  refine ⟨hrun verify dispatch now, rfl, ?_⟩
  intro verify2 dispatch2 now2
  rw [hrun verify dispatch now]
  exact congrArg FulfillResult.dispatched (hrun verify2 dispatch2 now2)

/-- Witness for `c5_fulfill_idempotent`. -/
theorem c5_witness :
    fulfillHandler { merchantOrderId := some "o1", sessionId := none }
      [{ sessionId := some "abc", merchantOrderId := some "o1",
         status := some "PAID", receiptSent := true }]
      (.error "down") (.threw "net") 3 =
      ⟨.alreadySent (some "PAID"),
       [{ sessionId := some "abc", merchantOrderId := some "o1",
          status := some "PAID", receiptSent := true }],
       false, none, 0⟩ :=
  (c5_fulfill_idempotent { merchantOrderId := some "o1", sessionId := none }
    [{ sessionId := some "abc", merchantOrderId := some "o1",
       status := some "PAID", receiptSent := true }]
    (.error "down") (.threw "net") 3 0
    { sessionId := some "abc", merchantOrderId := some "o1",
      status := some "PAID", receiptSent := true }
    (by decide) rfl).1

/-- C6 counterexample: a dispatch whose HTTP response resolves but is
non-success (`resp.ok = false`) stores `receiptSent = false` and returns
`200` — not the `500` the claim requires for a dispatch failure. -/
theorem c6_counterexample :
    (fulfillHandler { merchantOrderId := some "o1", sessionId := none }
      [{ sessionId := some "abc", merchantOrderId := some "o1",
         status := some "CREATED",
         user := some { name := some "n", email := some "e@x",
                        phone := none, age := none } }]
      (.ok { data := some { status := some "PAID",
                            merchantOrderId := some "o1", order := none },
             self := { status := none, merchantOrderId := none,
                       order := none } })
      (.responded false "bad") 3).resp =
      .dispatched (some "PAID") false "bad" ∧
    (fulfillHandler { merchantOrderId := some "o1", sessionId := none }
      [{ sessionId := some "abc", merchantOrderId := some "o1",
         status := some "CREATED",
         user := some { name := some "n", email := some "e@x",
                        phone := none, age := none } }]
      (.ok { data := some { status := some "PAID",
                            merchantOrderId := some "o1", order := none },
             self := { status := none, merchantOrderId := none,
                       order := none } })
      (.responded false "bad") 3).resp.code = 200 ∧
    (fulfillHandler { merchantOrderId := some "o1", sessionId := none }
      [{ sessionId := some "abc", merchantOrderId := some "o1",
         status := some "CREATED",
         user := some { name := some "n", email := some "e@x",
                        phone := none, age := none } }]
      (.ok { data := some { status := some "PAID",
                            merchantOrderId := some "o1", order := none },
             self := { status := none, merchantOrderId := none,
                       order := none } })
      (.responded false "bad") 3).store.map PaymentDoc.receiptSent =
      [false] := by
  refine ⟨by decide, by decide, by decide⟩

/-- C6 (amended): on a record not yet dispatched whose verified status
is a success state and whose email is resolvable: a dispatch whose HTTP
response is success sets `receiptSent = true`, stores the raw dispatch
response, and returns `200` with `receiptSent` and `receiptResponse`; a
dispatch whose promise rejects leaves `receiptSent` untouched (still
falsy, so a retry will dispatch again) and returns `500`; a dispatch
whose HTTP response resolves as non-success stores `receiptSent = false`
together with the raw response and returns `200` (not `500`). -/
theorem c6_dispatch_outcome (req : FulfillReq) (store : Store)
    (v : Verification) (now : Nat) (i : Nat) (d : PaymentDoc)
    (email : String)
    (hloc : locateDoc store req.merchantOrderId req.sessionId = some (i, d))
    (hns : d.receiptSent = false)
    (hsucc : isSuccess (Verification.payment v).status = true)
    (hemail : resolveEmail d = some email) :
    (∀ text,
      (fulfillHandler req store (.ok v) (.responded true text) now).resp =
        .dispatched (Verification.payment v).status true text ∧
      (FulfillResp.dispatched (Verification.payment v).status true text).code
        = 200 ∧
      ∃ d', (fulfillHandler req store (.ok v) (.responded true text) now).store
          = store.set i d' ∧
        d'.receiptSent = true ∧ d'.receiptResponse = some text)
    ∧ (∀ msg,
      (fulfillHandler req store (.ok v) (.threw msg) now).resp =
        .dispatchFailed ∧
      FulfillResp.dispatchFailed.code = 500 ∧
      ∃ d', (fulfillHandler req store (.ok v) (.threw msg) now).store
          = store.set i d' ∧
        d'.receiptSent = d.receiptSent ∧
        d'.receiptResponse = d.receiptResponse)
    ∧ (∀ text,
      (fulfillHandler req store (.ok v) (.responded false text) now).resp =
        .dispatched (Verification.payment v).status false text ∧
      (FulfillResp.dispatched (Verification.payment v).status false text).code
        = 200 ∧
      ∃ d', (fulfillHandler req store (.ok v) (.responded false text) now).store
          = store.set i d' ∧
        d'.receiptSent = false ∧ d'.receiptResponse = some text) := by
  have hval := locateDoc_some_valid store req.merchantOrderId req.sessionId _ hloc
  have hred : ∀ (dispatch : DispatchOutcome),
      fulfillHandler req store (.ok v) dispatch now =
        (match dispatch with
         | .responded ok text =>
           ⟨.dispatched (Verification.payment v).status ok text,
            store.set i
              {d with status := (Verification.payment v).status,
                      verification := some (Verification.payment v),
                      verifiedAt := some now, receiptSent := ok,
                      receiptResponse := some text},
            true, some (buildAppsPayload d email), 1⟩
         | .threw _ =>
           ⟨.dispatchFailed,
            store.set i
              {d with status := (Verification.payment v).status,
                      verification := some (Verification.payment v),
                      verifiedAt := some now},
            true, some (buildAppsPayload d email), 1⟩) := by
    intro dispatch
    unfold fulfillHandler
    rw [if_neg hval]
    simp only [hloc]
    have hns' : ¬(d.receiptSent = true) := by simp [hns]
    rw [if_neg hns']
    simp only [hemail]
    rw [if_neg (fun hc => hc hsucc)]
  refine ⟨?_, ?_, ?_⟩
  · intro text
    rw [hred (.responded true text)]
    exact ⟨rfl, rfl, _, rfl, rfl, rfl⟩
  · intro msg
    rw [hred (.threw msg)]
    exact ⟨rfl, rfl, _, rfl, rfl, rfl⟩
  · intro text
    rw [hred (.responded false text)]
    exact ⟨rfl, rfl, _, rfl, rfl, rfl⟩

/-- Witness for `c6_dispatch_outcome`. -/
theorem c6_witness :
    (fulfillHandler { merchantOrderId := some "o1", sessionId := none }
      [{ sessionId := some "abc", merchantOrderId := some "o1",
         status := some "CREATED",
         user := some { name := some "n", email := some "e@x",
                        phone := none, age := none } }]
      (.ok { data := some { status := some "PAID",
                            merchantOrderId := some "o1", order := none },
             self := { status := none, merchantOrderId := none,
                       order := none } })
      (.responded true "sent") 3).resp =
      .dispatched (some "PAID") true "sent" := by
  have h := c6_dispatch_outcome
    { merchantOrderId := some "o1", sessionId := none }
    [{ sessionId := some "abc", merchantOrderId := some "o1",
       status := some "CREATED",
       user := some { name := some "n", email := some "e@x",
                      phone := none, age := none } }]
    { data := some { status := some "PAID", merchantOrderId := some "o1",
                     order := none },
      self := { status := none, merchantOrderId := none, order := none } }
    3 0
    { sessionId := some "abc", merchantOrderId := some "o1",
      status := some "CREATED",
      user := some { name := some "n", email := some "e@x", phone := none,
                     age := none } }
    "e@x" (by decide) rfl (by decide) (by decide)
  exact (h.1 "sent").1

/-! ## Theorems: webhook lazy creation (C10) and correlation (C3) -/

/-- C10: a record created lazily by the webhook (no existing record for
the resolved session) stores the merchant order identifier under
`orderId` and carries no `merchantOrderId` field, so the lookups by
`merchantOrderId` used by the status and fulfillment handlers never find
it; it is reachable by its `sessionId`. -/
theorem c10_webhook_lazy_record (evt : Evt) (store : Store)
    (v : Verification) (now : Nat) (sid : String)
    (hres : resolveSessionId evt store = some sid)
    (hmiss : findWithIdx (fun x => x.sessionId = some sid) store = none) :
    ∃ doc, (webhookHandler evt store (.ok v) now).store = store ++ [doc] ∧
      doc.sessionId = some sid ∧
      doc.orderId = firstTruthy [(Verification.payment v).merchantOrderId,
        (Verification.payment v).order] ∧
      doc.merchantOrderId = none ∧
      (∀ m : String,
        findWithIdx (fun x => x.merchantOrderId = some m) (store ++ [doc]) =
          findWithIdx (fun x => x.merchantOrderId = some m) store) ∧
      findWithIdx (fun x => x.sessionId = some sid) (store ++ [doc]) =
        some (store.length, doc) := by
  unfold webhookHandler
  rw [hres]
  dsimp only
  rw [hmiss]
  refine ⟨_, rfl, rfl, rfl, rfl, ?_, ?_⟩
  · intro m
    exact findWithIdx_append_nomatch _ store _ (by simp)
  · rw [findWithIdx_append_none _ _ _ hmiss, if_pos (by simp)]

/-- Witness for `c10_webhook_lazy_record`. -/
theorem c10_witness :
    ∃ doc,
      (webhookHandler { sessionId := some "abc" } []
        (.ok { data := some { status := some "PAID",
                              merchantOrderId := some "o1", order := none },
               self := { status := none, merchantOrderId := none,
                         order := none } })
        7).store = [] ++ [doc] ∧
      doc.sessionId = some "abc" ∧
      doc.orderId = firstTruthy [some "o1", none] ∧
      doc.merchantOrderId = none := by
  obtain ⟨doc, h1, h2, h3, h4, _, _⟩ := c10_webhook_lazy_record
    { sessionId := some "abc" } []
    { data := some { status := some "PAID", merchantOrderId := some "o1",
                     order := none },
      self := { status := none, merchantOrderId := none, order := none } }
    7 "abc" (by decide) (by decide)
  exact ⟨doc, h1, h2, h3, h4⟩

/-- C3: the webhook correlation fallback is ordered and stops at the
first match: a truthy direct session identifier wins; otherwise a record
found by `merchantOrderId` supplies its `sessionId`; otherwise a record
found by the provider-assigned order reference against the stored raw
response supplies its `sessionId`; when nothing resolves, the handler
answers `400` with no verification call and no store write.  A
notification carrying only a matching `merchantOrderId` resolves to the
same session identifier as one carrying it directly. -/
theorem c3_correlation_fallback (evt : Evt) (store : Store)
    (verify : Except String Verification) (now : Nat) :
    (∀ s, directSessionId evt = some s →
      resolveSessionId evt store = some s)
    ∧ (∀ m d s, directSessionId evt = none →
        evtMerchantOrderId evt = some m →
        findByMerchantOrderId store m = some d →
        truthy d.sessionId = some s →
        resolveSessionId evt store = some s)
    ∧ (∀ k d s, directSessionId evt = none →
        (match evtMerchantOrderId evt with
         | some m => (findByMerchantOrderId store m).bind
             (fun x => truthy x.sessionId)
         | none => none) = none →
        evtKashierOrderId evt = some k →
        findByResponseId store k = some d →
        truthy d.sessionId = some s →
        resolveSessionId evt store = some s)
    ∧ (resolveSessionId evt store = none →
        webhookHandler evt store verify now =
          ⟨.missingSessionId, store, false, 0⟩ ∧
        WebhookResp.missingSessionId.code = 400)
    ∧ (∀ m d sid, m ≠ "" → sid ≠ "" →
        findByMerchantOrderId store m = some d → d.sessionId = some sid →
        resolveSessionId { merchantOrderId := some m } store = some sid ∧
        resolveSessionId { sessionId := some sid } store = some sid) := by
  refine ⟨?_, ?_, ?_, ?_, ?_⟩
  · intro s h
    unfold resolveSessionId
    rw [h]
  · intro m d s h0 hm hfind hts
    unfold resolveSessionId
    rw [h0]
    dsimp only
    rw [hm]
    dsimp only
    rw [hfind]
    simp only [Option.some_bind]
    rw [hts]
  · intro k d s h0 hvm hk hfind hts
    unfold resolveSessionId
    rw [h0]
    dsimp only
    rw [hvm]
    dsimp only
    rw [hk]
    dsimp only
    rw [hfind]
    simp only [Option.some_bind]
    rw [hts]
  · intro hres
    constructor
    · unfold webhookHandler
      rw [hres]
    · rfl
  · intro m d sid hm hsid hfind hds
    constructor
    · have h0 : directSessionId { merchantOrderId := some m } = none := rfl
      have hm' : evtMerchantOrderId { merchantOrderId := some m } = some m := by
        simp [evtMerchantOrderId, firstTruthy, jsOr, hm]
      unfold resolveSessionId
      rw [h0]
      dsimp only
      rw [hm']
      dsimp only
      rw [hfind]
      simp only [Option.some_bind]
      rw [hds]
      simp [truthy, jsOr, hsid]
    · have hdir : directSessionId { sessionId := some sid } = some sid := by
        simp [directSessionId, firstTruthy, jsOr, hsid]
      unfold resolveSessionId
      rw [hdir]

/-- Witness for `c3_correlation_fallback`. -/
theorem c3_witness :
    resolveSessionId { merchantOrderId := some "o1" }
      [{ sessionId := some "abc", merchantOrderId := some "o1",
         status := some "CREATED" }] = some "abc" ∧
    resolveSessionId { sessionId := some "abc" }
      [{ sessionId := some "abc", merchantOrderId := some "o1",
         status := some "CREATED" }] = some "abc" :=
  (c3_correlation_fallback { merchantOrderId := some "o1" }
    [{ sessionId := some "abc", merchantOrderId := some "o1",
       status := some "CREATED" }]
    (.error "x") 0).2.2.2.2 "o1"
    { sessionId := some "abc", merchantOrderId := some "o1",
      status := some "CREATED" }
    "abc" (by decide) (by decide) (by decide) rfl

/-! ## Theorems: trust boundary (C2) -/

/-- Overwrite the self-reported status fields of a notification (the
top-level `status` and the nested `data.status`). -/
def withReportedStatus (evt : Evt) (s t : Option String) : Evt :=
  {evt with status := s, data := evt.data.map (fun d => {d with status := t})}

/-- The correlation resolution never reads the self-reported status. -/
theorem resolve_withReportedStatus (evt : Evt) (s t : Option String)
    (store : Store) :
    resolveSessionId (withReportedStatus evt s t) store =
      resolveSessionId evt store := by
  cases hd : evt.data <;>
    simp [resolveSessionId, directSessionId, evtMerchantOrderId,
      evtKashierOrderId, withReportedStatus, hd]

/-- C2: the webhook handler is invariant under the notification's
self-reported status fields, and every document of the resulting store
either was already present or carries exactly the status returned by the
verification call — a notification's claimed status is never written. -/
theorem c2_trust_boundary (evt : Evt) (s t : Option String) (store : Store)
    (verify : Except String Verification) (v : Verification) (now : Nat) :
    webhookHandler (withReportedStatus evt s t) store verify now =
      webhookHandler evt store verify now
    ∧ (∀ d, d ∈ (webhookHandler evt store (.ok v) now).store →
        d ∈ store ∨ d.status = (Verification.payment v).status) := by
  constructor
  · unfold webhookHandler
    rw [resolve_withReportedStatus]
  · intro d hd
    unfold webhookHandler at hd
    cases hres : resolveSessionId evt store with
    | none =>
      rw [hres] at hd
      exact Or.inl hd
    | some sid =>
      rw [hres] at hd
      dsimp only at hd
      cases hfind : findWithIdx (fun x => x.sessionId = some sid) store with
      | some x =>
        obtain ⟨i, d0⟩ := x
        rw [hfind] at hd
        dsimp only at hd
        by_cases heq : d0.status = (Verification.payment v).status
        · rw [if_pos heq] at hd
          exact Or.inl hd
        · rw [if_neg heq] at hd
          rcases List.mem_or_eq_of_mem_set hd with h | h
          · exact Or.inl h
          · exact Or.inr (by rw [h])
      | none =>
        rw [hfind] at hd
        dsimp only at hd
        rcases List.mem_append.mp hd with h | h
        · exact Or.inl h
        · rcases List.mem_singleton.mp h with rfl
          exact Or.inr rfl

/-! ## Theorems: webhook idempotence (C1) -/

/-- The projection of a document that the correlation resolution can
observe: the `merchantOrderId` key, the truthy `sessionId` it would
return, and the `response._id` key. -/
def resKey (d : PaymentDoc) : Option String × Option String × Option String :=
  (d.merchantOrderId, truthy d.sessionId, d.response.bind (fun r => r._id))

/-- A `find?`-then-read that factors through `resKey` only depends on
the image of the store under `resKey`. -/
theorem find?_bind_resKey
    (qk : Option String × Option String × Option String → Bool)
    (gk : Option String × Option String × Option String → Option String)
    (l l' : Store) (h : l.map resKey = l'.map resKey) :
    ((l.find? (fun d => qk (resKey d))).bind (fun d => gk (resKey d))) =
    ((l'.find? (fun d => qk (resKey d))).bind (fun d => gk (resKey d))) := by
  induction l generalizing l' with
  | nil =>
    cases l' with
    | nil => rfl
    | cons hd' tl' => simp at h
  | cons hd tl ih =>
    cases l' with
    | nil => simp at h
    | cons hd' tl' =>
      simp only [List.map_cons, List.cons.injEq] at h
      obtain ⟨hk, ht⟩ := h
      by_cases hq : qk (resKey hd) = true
      · have hq' : qk (resKey hd') = true := by rw [← hk]; exact hq
        simp only [List.find?_cons, hq, hq']
        simp only [Option.some_bind]
        rw [hk]
      · have hqf : qk (resKey hd) = false := by simpa using hq
        have hqf' : qk (resKey hd') = false := by rw [← hk]; exact hqf
        simp only [List.find?_cons, hqf, hqf']
        exact ih tl' ht

/-- Resolution is unchanged between stores whose lookup tables agree. -/
theorem resolve_eq_of_lookups (evt : Evt) (l l' : Store)
    (h1 : ∀ m, (findByMerchantOrderId l m).bind (fun d => truthy d.sessionId)
        = (findByMerchantOrderId l' m).bind (fun d => truthy d.sessionId))
    (h2 : ∀ k, (findByResponseId l k).bind (fun d => truthy d.sessionId)
        = (findByResponseId l' k).bind (fun d => truthy d.sessionId)) :
    resolveSessionId evt l = resolveSessionId evt l' := by
  unfold resolveSessionId
  cases directSessionId evt with
  | some s => rfl
  | none =>
    dsimp only
    have hm : (match evtMerchantOrderId evt with
        | some m => (findByMerchantOrderId l m).bind (fun d => truthy d.sessionId)
        | none => none) =
        (match evtMerchantOrderId evt with
        | some m => (findByMerchantOrderId l' m).bind (fun d => truthy d.sessionId)
        | none => none) := by
      cases evtMerchantOrderId evt with
      | some m => exact h1 m
      | none => rfl
    rw [hm]
    cases (match evtMerchantOrderId evt with
        | some m => (findByMerchantOrderId l' m).bind (fun d => truthy d.sessionId)
        | none => none) with
    | some s => rfl
    | none =>
      cases evtKashierOrderId evt with
      | some k => exact h2 k
      | none => rfl

/-- Resolution only depends on the store through `resKey`. -/
theorem resolve_congr (evt : Evt) (l l' : Store)
    (h : l.map resKey = l'.map resKey) :
    resolveSessionId evt l = resolveSessionId evt l' := by
  refine resolve_eq_of_lookups evt l l' ?_ ?_
  · intro m
    exact find?_bind_resKey (fun k => k.1 = some m) (fun k => k.2.1) l l' h
  · intro k
    exact find?_bind_resKey (fun x => x.2.2 = some k) (fun x => x.2.1) l l' h

/-- A status-only update of a stored document does not change webhook
correlation resolution. -/
theorem resolve_set_update (evt : Evt) (store : Store) (i : Nat)
    (d e : PaymentDoc) (hget : store[i]? = some d)
    (hmo : e.merchantOrderId = d.merchantOrderId)
    (hsid : e.sessionId = d.sessionId)
    (hresp : e.response = d.response) :
    resolveSessionId evt (store.set i e) = resolveSessionId evt store :=
  resolve_congr evt _ _
    (map_set_self resKey store i d e hget (by simp [resKey, hmo, hsid, hresp]))

/-- Appending a document with no `merchantOrderId` and no `response`
(like a webhook-created record) does not change correlation resolution. -/
theorem resolve_append_invisible (evt : Evt) (store : Store)
    (n : PaymentDoc) (hmo : n.merchantOrderId = none)
    (hresp : n.response = none) :
    resolveSessionId evt (store ++ [n]) = resolveSessionId evt store := by
  refine resolve_eq_of_lookups evt _ _ ?_ ?_
  · intro m
    unfold findByMerchantOrderId
    rw [List.find?_append]
    have hn : List.find? (fun d => d.merchantOrderId = some m) [n] = none := by
      simp [List.find?_cons, hmo]
    rw [hn, Option.or_none]
  · intro k
    unfold findByResponseId
    rw [List.find?_append]
    have hn : List.find?
        (fun d => d.response.bind (fun r => r._id) = some k) [n] = none := by
      simp [List.find?_cons, hresp]
    rw [hn, Option.or_none]

/-- C1: webhook reconciliation is idempotent.  When the resolved session
has an existing record whose stored status equals the verified status,
the handler performs no store write at all and the store (in particular
every `verifiedAt`) is unchanged; otherwise the first run performs
exactly one write, and re-processing the same notification with the same
verification result on the resulting store writes nothing and leaves the
store unchanged. -/
theorem c1_webhook_idempotent (evt : Evt) (store : Store) (v : Verification)
    (now now2 : Nat) (sid : String)
    (hres : resolveSessionId evt store = some sid) :
    (∀ i d, findWithIdx (fun x => x.sessionId = some sid) store = some (i, d) →
       d.status = (Verification.payment v).status →
       (webhookHandler evt store (.ok v) now).writes = 0 ∧
       (webhookHandler evt store (.ok v) now).store = store)
    ∧ ((∀ i d, findWithIdx (fun x => x.sessionId = some sid) store = some (i, d) →
         d.status ≠ (Verification.payment v).status) →
       (webhookHandler evt store (.ok v) now).writes = 1)
    ∧ (webhookHandler evt (webhookHandler evt store (.ok v) now).store
        (.ok v) now2).writes = 0
    ∧ (webhookHandler evt (webhookHandler evt store (.ok v) now).store
        (.ok v) now2).store = (webhookHandler evt store (.ok v) now).store := by
  cases hfind : findWithIdx (fun x => x.sessionId = some sid) store with
  | some x =>
    obtain ⟨i, d⟩ := x
    have hget := findWithIdx_getElem _ _ _ _ hfind
    have hdsid : d.sessionId = some sid := by
      have := findWithIdx_pred _ _ _ _ hfind
      simpa using this
    by_cases heq : d.status = (Verification.payment v).status
    · have hr1 : ∀ nowx, webhookHandler evt store (.ok v) nowx =
          ⟨.okResp, store, true, 0⟩ := by
        intro nowx
        unfold webhookHandler
        rw [hres]
        dsimp only
        rw [hfind]
        dsimp only
        rw [if_pos heq]
      refine ⟨fun i' d' _ _ => by rw [hr1 now]; exact ⟨rfl, rfl⟩, ?_, ?_, ?_⟩
      · intro hall
        exact absurd heq (hall i d rfl)
      · rw [hr1 now]
        dsimp only
        rw [hr1 now2]
      · rw [hr1 now]
        dsimp only
        rw [hr1 now2]
    · have hr1 : webhookHandler evt store (.ok v) now =
          ⟨.okResp,
           store.set i {d with status := (Verification.payment v).status,
                               verifiedAt := some now,
                               verification := some (Verification.payment v)},
           true, 1⟩ := by
        unfold webhookHandler
        rw [hres]
        dsimp only
        rw [hfind]
        dsimp only
        rw [if_neg heq]
      have hres2 : resolveSessionId evt
          (store.set i {d with status := (Verification.payment v).status,
                               verifiedAt := some now,
                               verification := some (Verification.payment v)}) =
          some sid := by
        rw [resolve_set_update evt store i d
          {d with status := (Verification.payment v).status,
                  verifiedAt := some now,
                  verification := some (Verification.payment v)}
          hget rfl rfl rfl]
        exact hres
      have hfind2 : findWithIdx (fun x => x.sessionId = some sid)
          (store.set i {d with status := (Verification.payment v).status,
                               verifiedAt := some now,
                               verification := some (Verification.payment v)}) =
          some (i, {d with status := (Verification.payment v).status,
                           verifiedAt := some now,
                           verification := some (Verification.payment v)}) :=
        findWithIdx_set _ _ _ _ _ hfind (by simp [hdsid])
      have hr2 : webhookHandler evt
          (store.set i {d with status := (Verification.payment v).status,
                               verifiedAt := some now,
                               verification := some (Verification.payment v)})
          (.ok v) now2 =
          ⟨.okResp,
           store.set i {d with status := (Verification.payment v).status,
                               verifiedAt := some now,
                               verification := some (Verification.payment v)},
           true, 0⟩ := by
        unfold webhookHandler
        rw [hres2]
        dsimp only
        rw [hfind2]
        dsimp only
        rw [if_pos rfl]
      refine ⟨?_, ?_, ?_, ?_⟩
      · intro i' d' hf' heq'
        injection hf' with hpair
        injection hpair with hi hd
        subst hd
        exact absurd heq' heq
      · intro _
        rw [hr1]
      · rw [hr1]
        dsimp only
        rw [hr2]
      · rw [hr1]
        dsimp only
        rw [hr2]
  | none =>
    have hr1 : webhookHandler evt store (.ok v) now =
        ⟨.okResp,
         store ++ [{ sessionId := some sid,
                     orderId := firstTruthy
                       [(Verification.payment v).merchantOrderId,
                        (Verification.payment v).order],
                     status := (Verification.payment v).status,
                     verification := some (Verification.payment v),
                     createdAt := some now : PaymentDoc }],
         true, 1⟩ := by
      unfold webhookHandler
      rw [hres]
      dsimp only
      rw [hfind]
    have hres2 : resolveSessionId evt
        (store ++ [{ sessionId := some sid,
                     orderId := firstTruthy
                       [(Verification.payment v).merchantOrderId,
                        (Verification.payment v).order],
                     status := (Verification.payment v).status,
                     verification := some (Verification.payment v),
                     createdAt := some now : PaymentDoc }]) = some sid := by
      rw [resolve_append_invisible evt store _ rfl rfl]
      exact hres
    have hfind2 : findWithIdx (fun x => x.sessionId = some sid)
        (store ++ [{ sessionId := some sid,
                     orderId := firstTruthy
                       [(Verification.payment v).merchantOrderId,
                        (Verification.payment v).order],
                     status := (Verification.payment v).status,
                     verification := some (Verification.payment v),
                     createdAt := some now : PaymentDoc }]) =
        some (store.length,
          { sessionId := some sid,
            orderId := firstTruthy
              [(Verification.payment v).merchantOrderId,
               (Verification.payment v).order],
            status := (Verification.payment v).status,
            verification := some (Verification.payment v),
            createdAt := some now : PaymentDoc }) := by
      rw [findWithIdx_append_none _ _ _ hfind, if_pos (by simp)]
    have hr2 : webhookHandler evt
        (store ++ [{ sessionId := some sid,
                     orderId := firstTruthy
                       [(Verification.payment v).merchantOrderId,
                        (Verification.payment v).order],
                     status := (Verification.payment v).status,
                     verification := some (Verification.payment v),
                     createdAt := some now : PaymentDoc }]) (.ok v) now2 =
        ⟨.okResp,
         store ++ [{ sessionId := some sid,
                     orderId := firstTruthy
                       [(Verification.payment v).merchantOrderId,
                        (Verification.payment v).order],
                     status := (Verification.payment v).status,
                     verification := some (Verification.payment v),
                     createdAt := some now : PaymentDoc }],
         true, 0⟩ := by
      unfold webhookHandler
      rw [hres2]
      dsimp only
      rw [hfind2]
      dsimp only
      rw [if_pos rfl]
    refine ⟨?_, ?_, ?_, ?_⟩
    · intro i' d' hf' _
      cases hf'
    · intro _
      rw [hr1]
    · rw [hr1]
      dsimp only
      rw [hr2]
    · rw [hr1]
      dsimp only
      rw [hr2]

/-- Witness for `c1_webhook_idempotent`: an existing record already in
the verified state is left untouched. -/
theorem c1_witness :
    (webhookHandler { sessionId := some "abc" }
      [{ sessionId := some "abc", merchantOrderId := some "o1",
         status := some "PAID" }]
      (.ok { data := some { status := some "PAID",
                            merchantOrderId := some "o1", order := none },
             self := { status := none, merchantOrderId := none,
                       order := none } })
      7).writes = 0 ∧
    (webhookHandler { sessionId := some "abc" }
      [{ sessionId := some "abc", merchantOrderId := some "o1",
         status := some "PAID" }]
      (.ok { data := some { status := some "PAID",
                            merchantOrderId := some "o1", order := none },
             self := { status := none, merchantOrderId := none,
                       order := none } })
      7).store =
      [{ sessionId := some "abc", merchantOrderId := some "o1",
         status := some "PAID" }] :=
  (c1_webhook_idempotent { sessionId := some "abc" }
    [{ sessionId := some "abc", merchantOrderId := some "o1",
       status := some "PAID" }]
    { data := some { status := some "PAID", merchantOrderId := some "o1",
                     order := none },
      self := { status := none, merchantOrderId := none, order := none } }
    7 9 "abc" (by decide)).1 0
    { sessionId := some "abc", merchantOrderId := some "o1",
      status := some "PAID" }
    (by decide) (by decide)

end TuringBackend
